import Mathlib

/-!
Shallow embedding of `docker_stats_tracker.py` (class `DockerStatsTracker`).

The program is a single linear pipeline: load a JSON list of projects from
the `DOCKER_PROJECTS` environment variable, fetch a `pull_count` per project
from the Docker Hub HTTP API, append one CSV row per successful fetch to
`stats/docker_downloads.csv`, and — when `GITHUB_ACTIONS` is truthy — commit
and push the file with git.  External effects (the HTTP client, the
subprocess calls, the clock) are modelled as oracle inputs; the file system,
log sink, standard output and the list of issued network requests are
modelled as explicit state threaded through the definitions.
-/

namespace DockerStats

/-- Python exceptions that the tracker can raise or observe.
`requestException` stands for `requests.exceptions.RequestException` and its
subclasses (`Timeout`, `HTTPError`, ...); `keyError` for `KeyError`;
`valueError` for `ValueError`; `osError` for exceptions raised by
`subprocess.run` itself (e.g. the git binary being absent); `exception` for
a bare `Exception(msg)`. -/
inductive PyErr where
  | valueError (msg : String)
  | requestException (msg : String)
  | keyError (key : String)
  | osError (msg : String)
  | exception (msg : String)
deriving Repr, DecidableEq

/-- `str(e)` for the exceptions above.  Python renders `str(KeyError(k))`
with quotation marks around the key; the quoting is omitted here (no claim
depends on it). -/
def PyErr.message : PyErr → String
  | .valueError m => m
  | .requestException m => m
  | .keyError k => k
  | .osError m => m
  | .exception m => m

/-- Leveled log entries emitted through `logging`. -/
inductive LogLevel where
  | info
  | error
deriving Repr, DecidableEq

structure LogEntry where
  level : LogLevel
  msg : String
deriving Repr, DecidableEq

/-- Python truthiness of an optional environment/string value:
`None` and the empty string are falsy. -/
def pyTruthyStr : Option String → Bool
  | none => false
  | some s => s ≠ ""

/-- Rendering of an optional string in an f-string: `None` for a missing
value, the string itself otherwise. -/
def pyStrOpt : Option String → String
  | none => "None"
  | some s => s

/-- One element of the parsed `DOCKER_PROJECTS` JSON array: an object whose
`username` / `repository` keys may be absent (`dict.get` returns `None`).
Per the configuration contract the entries are JSON objects with string
fields. -/
structure Project where
  username : Option String
  repository : Option String
deriving Repr, DecidableEq

/-- Rendering of the project dict inside the
`Invalid project configuration: {project}` message.  Python would print the
dict literal with quoted keys present in the dict; this rendering is
simplified (no claim depends on its exact shape). -/
def Project.pyStr (p : Project) : String :=
  "\x7busername: " ++ pyStrOpt p.username ++ ", repository: " ++ pyStrOpt p.repository ++ "\x7d"

/-- Value of the `DOCKER_PROJECTS` environment variable, at the level of
detail `_load_projects` distinguishes: absent, set to the empty string
(both falsy), set but rejected by `json.loads` (which raises
`JSONDecodeError` carrying `msg`), or successfully parsed to an array of
objects. -/
inductive ProjectsVar where
  | absent
  | blank
  | malformed (msg : String)
  | parsed (projects : List Project)
deriving Repr, DecidableEq

/-- `DockerStatsTracker._load_projects`.  The `ValueError` raised when the
parsed list is empty is not a `JSONDecodeError`, so it escapes the
`try/except` unchanged. -/
def load_projects (var : ProjectsVar) : Except PyErr (List Project) :=
  match var with
  | .absent => .error (.valueError "DOCKER_PROJECTS environment variable is not set")
  | .blank => .error (.valueError "DOCKER_PROJECTS environment variable is not set")
  | .malformed msg => .error (.valueError ("Invalid JSON in DOCKER_PROJECTS: " ++ msg))
  | .parsed projects =>
      if projects.isEmpty then .error (.valueError "No projects defined in DOCKER_PROJECTS")
      else .ok projects

/-- The URL built by `get_docker_downloads`. -/
def repoUrl (username repository : String) : String :=
  "https://hub.docker.com/v2/repositories/" ++ username ++ "/" ++ repository ++ "/"

/-- Outcome of the single `requests.get` call for one repository, as far as
the tracker can observe it: the request raised a transport-level
`RequestException` (timeout, connection error, ...) with message `msg`, or
a response arrived with `status` and a JSON body; the body is modelled as
the set of integer fields of the parsed object. -/
inductive HttpOutcome where
  | transportError (msg : String)
  | response (status : Nat) (body : List (String × Int))
deriving Repr, DecidableEq

/-- Message of the `HTTPError` raised by `response.raise_for_status` for a
4xx/5xx status.  The exact phrasing belongs to the HTTP client library (a
black box); only its dependence on status and URL is kept. -/
def httpErrorStr (status : Nat) (url : String) : String :=
  if status < 500 then toString status ++ " Client Error for url: " ++ url
  else toString status ++ " Server Error for url: " ++ url

/-- `raise_for_status` raises exactly for statuses in [400, 600). -/
def badStatus (status : Nat) : Bool :=
  400 ≤ status ∧ status < 600

/-- `DockerStatsTracker.get_docker_downloads`, given the outcome of its one
HTTP request.  Returns the result (`pull_count` or the propagated
exception) together with the log entries it emits.  Note the shape of the
source: only `requests.exceptions.RequestException` is caught and logged;
a body without `pull_count` raises a `KeyError`, which matches no `except`
clause, so it propagates with no log entry. -/
def get_docker_downloads (username repository : String) (o : HttpOutcome) :
    Except PyErr Int × List LogEntry :=
  match o with
  | .transportError msg =>
      let e := PyErr.requestException msg
      (.error e,
       [⟨.error, "Failed to fetch Docker Hub data for " ++ username ++ "/" ++ repository
          ++ ": " ++ e.message⟩])
  | .response status body =>
      if badStatus status then
        let e := PyErr.requestException (httpErrorStr status (repoUrl username repository))
        (.error e,
         [⟨.error, "Failed to fetch Docker Hub data for " ++ username ++ "/" ++ repository
            ++ ": " ++ e.message⟩])
      else
        match body.lookup "pull_count" with
        | some n => (.ok n, [])
        | none => (.error (.keyError "pull_count"), [])

/-- The `pull_count` the fetch yields when it succeeds, `none` when it
fails; a statement-level companion of `get_docker_downloads`. -/
def fetchValue (o : HttpOutcome) : Option Int :=
  match o with
  | .transportError _ => none
  | .response status body => if badStatus status then none else body.lookup "pull_count"

/-- One entry of `downloads_data` as accumulated by `run`. -/
structure DownloadEntry where
  username : String
  repository : String
  downloads : Int
deriving Repr, DecidableEq

/-- A CSV file is a list of records, each a list of fields (quoting never
arises in the claims considered). -/
abbrev Csv := List (List String)

/-- The header record written on file creation. -/
def headerRow : List String := ["Date", "Repository", "Downloads"]

/-- The record `csv.writer.writerow` emits for one download entry:
date, `username/repository`, decimal count. -/
def rowOf (date : String) (d : DownloadEntry) : List String :=
  [date, d.username ++ "/" ++ d.repository, toString d.downloads]

/-- The ledger path `stats/docker_downloads.csv` (as a string, the form in
which it reaches `commit_and_push_changes`). -/
def csvFile : String := "stats/docker_downloads.csv"

/-- `DockerStatsTracker.store_data`.  The file is `none` when
`stats/docker_downloads.csv` does not exist yet; in that case it is created
with the header record first.  The data rows are then appended (`open` mode
`a`).  Returns the new file content and the log entries emitted. -/
def store_data (date : String) (downloads_data : List DownloadEntry) (file : Option Csv) :
    Csv × List LogEntry :=
  let (base, created) :=
    match file with
    | none => ([headerRow], [LogEntry.mk .info "Created new CSV file for tracking downloads"])
    | some content => (content, [])
  (base ++ downloads_data.map (rowOf date),
   created ++ [LogEntry.mk .info
     ("Stored download counts for " ++ toString downloads_data.length ++ " repositories")])

/-- Outcome of one `subprocess.run` invocation: the process ran and exited
with `code` (no `check=True` is passed anywhere, so `subprocess.run` returns
a `CompletedProcess` for any exit code), or the invocation itself raised
(e.g. `FileNotFoundError` when git is absent). -/
inductive StepResult where
  | exited (code : Nat)
  | raised (e : PyErr)
deriving Repr, DecidableEq

/-- The five `subprocess.run` argument lists of `commit_and_push_changes`,
in call order. -/
def gitCommands (changed_file date : String) : List (List String) :=
  [["git", "config", "user.name", "GitHub Actions Bot"],
   ["git", "config", "user.email", "actions@github.com"],
   ["git", "add", changed_file],
   ["git", "commit", "-m", "Update download stats for " ++ date],
   ["git", "push"]]

/-- Run the given commands in order against the subprocess oracle `git`
(indexed by call position, starting at `i`).  Stops at the first invocation
that raises; exit codes are not inspected.  Returns the overall result and
the list of commands whose invocation was attempted. -/
def runSteps (git : Nat → StepResult) : List (List String) → Nat →
    Except PyErr Unit × List (List String)
  | [], _ => (.ok (), [])
  | c :: cs, i =>
      match git i with
      | .raised e => (.error e, [c])
      | .exited _ =>
          let rest := runSteps git cs (i + 1)
          (rest.1, c :: rest.2)

/-- `DockerStatsTracker.commit_and_push_changes`, against the subprocess
oracle `git`.  Returns the result (an invocation exception propagates after
being logged; otherwise success), the log entries emitted, and the commands
attempted.  The source passes no `check=True`, so a git step that exits
nonzero is indistinguishable from success here, exactly as in the code. -/
def commit_and_push_changes (changed_file date : String) (git : Nat → StepResult) :
    Except PyErr Unit × List LogEntry × List (List String) :=
  let r := runSteps git (gitCommands changed_file date) 0
  match r.1 with
  | .ok _ => (.ok (), [LogEntry.mk .info "Successfully committed and pushed changes to GitHub"], r.2)
  | .error e =>
      (.error e, [LogEntry.mk .error ("Failed to commit and push changes: " ++ e.message)], r.2)

/-- The first exception the subprocess oracle raises among call positions
`i, i+1, ..., i+k-1`, if any. -/
def firstRaiseFrom (git : Nat → StepResult) : Nat → Nat → Option PyErr
  | _, 0 => none
  | i, k + 1 =>
      match git i with
      | .raised e => some e
      | .exited _ => firstRaiseFrom git (i + 1) k

/-- The first exception raised among the five git invocations, if any. -/
def firstRaise (git : Nat → StepResult) : Option PyErr :=
  firstRaiseFrom git 0 5

/-- Python `f"{n:,}"`: decimal digits grouped in threes.  Auxiliary: the
low three digits zero-padded. -/
def pad3 (n : Nat) : String :=
  if n < 10 then "00" ++ toString n
  else if n < 100 then "0" ++ toString n
  else toString n

def commaGroups (n : Nat) : String :=
  if n < 1000 then toString n
  else commaGroups (n / 1000) ++ "," ++ pad3 (n % 1000)
termination_by n
decreasing_by exact Nat.div_lt_self (by omega) (by omega)

/-- Python `f"{i:,}"` for an integer. -/
def pyCommaFormat (i : Int) : String :=
  if i < 0 then "-" ++ commaGroups i.natAbs else commaGroups i.natAbs

/-- State accumulated by the `for project in self.projects` loop of `run`,
together with the observable effects recorded along the way. -/
structure LoopState where
  downloads_data : List DownloadEntry
  errors : List String
  logs : List LogEntry
  prints : List String
  requests : List String
deriving Repr, DecidableEq

def LoopState.empty : LoopState := ⟨[], [], [], [], []⟩

/-- Pointwise concatenation of loop states. -/
def LoopState.app (a b : LoopState) : LoopState :=
  ⟨a.downloads_data ++ b.downloads_data, a.errors ++ b.errors, a.logs ++ b.logs,
   a.prints ++ b.prints, a.requests ++ b.requests⟩

/-- One iteration of the loop body of `run` on `project`.  Mirrors the
source: read `username` / `repository` with `dict.get`; if either is falsy
raise `ValueError` (caught below); otherwise log, issue the request, and on
success append to `downloads_data` and print, while `except Exception`
turns any failure into a logged error message appended to `errors` before
the loop continues. -/
def processProject (fetch : String → String → HttpOutcome) (st : LoopState)
    (project : Project) : LoopState :=
  let username := project.username
  let repository := project.repository
  if pyTruthyStr username && pyTruthyStr repository then
    let u := username.getD ""
    let r := repository.getD ""
    let st1 : LoopState :=
      { st with logs := st.logs ++ [LogEntry.mk .info ("Processing " ++ u ++ "/" ++ r)],
                requests := st.requests ++ [repoUrl u r] }
    match get_docker_downloads u r (fetch u r) with
    | (.ok downloads, flogs) =>
        { st1 with logs := st1.logs ++ flogs,
                   downloads_data := st1.downloads_data ++ [⟨u, r, downloads⟩],
                   prints := st1.prints ++
                     ["\nDocker Hub Statistics for " ++ u ++ "/" ++ r,
                      "Current Downloads: " ++ pyCommaFormat downloads] }
    | (.error e, flogs) =>
        let error_msg := "Error processing " ++ u ++ "/" ++ r ++ ": " ++ e.message
        { st1 with logs := st1.logs ++ flogs ++ [LogEntry.mk .error error_msg],
                   errors := st1.errors ++ [error_msg] }
  else
    let e := PyErr.valueError ("Invalid project configuration: " ++ project.pyStr)
    let error_msg := "Error processing " ++ pyStrOpt username ++ "/" ++ pyStrOpt repository
      ++ ": " ++ e.message
    { st with logs := st.logs ++ [LogEntry.mk .error error_msg],
              errors := st.errors ++ [error_msg] }

/-- The whole collection loop of `run`. -/
def runLoop (fetch : String → String → HttpOutcome) (projects : List Project) : LoopState :=
  projects.foldl (processProject fetch) LoopState.empty

/-- The effect of processing one project in isolation (from the empty
state). -/
def iterEffect (fetch : String → String → HttpOutcome) (p : Project) : LoopState :=
  processProject fetch LoopState.empty p

/-- Concatenation of the independent per-project effects. -/
def loopEffect (fetch : String → String → HttpOutcome) : List Project → LoopState
  | [] => LoopState.empty
  | p :: ps => LoopState.app (iterEffect fetch p) (loopEffect fetch ps)

/-- The inputs a call to `DockerStatsTracker.run` depends on: the loaded
projects, the HTTP oracle, the subprocess oracle, the `GITHUB_ACTIONS`
environment value, the run date (`datetime.now().strftime("%Y-%m-%d")`
taken at the start of `run`), and the ledger file state. -/
structure RunInput where
  projects : List Project
  fetch : String → String → HttpOutcome
  git : Nat → StepResult
  githubActions : Option String
  date : String
  file : Option Csv

/-- The observable outcome of `run`: the ledger file state, the normal or
exceptional result, the final `errors` list, `downloads_data`, the log
entries, the lines printed to stdout, the network requests issued, and the
git commands attempted. -/
structure RunResult where
  file : Option Csv
  result : Except PyErr Unit
  errors : List String
  downloads : List DownloadEntry
  logs : List LogEntry
  prints : List String
  requests : List String
  gitCmds : List (List String)

/-- The tail of `run`: raise `Exception("\n".join(errors))` when any error
was recorded, otherwise log completion. -/
def finishRun (file : Option Csv) (st : LoopState) (extraLogs : List LogEntry)
    (gitCmds : List (List String)) (errors : List String) : RunResult :=
  if errors.isEmpty then
    { file := file, result := .ok (), errors := errors, downloads := st.downloads_data,
      logs := st.logs ++ extraLogs ++ [LogEntry.mk .info "Script completed successfully"],
      prints := st.prints, requests := st.requests, gitCmds := gitCmds }
  else
    { file := file, result := .error (.exception (String.intercalate "\n" errors)),
      errors := errors, downloads := st.downloads_data, logs := st.logs ++ extraLogs,
      prints := st.prints, requests := st.requests, gitCmds := gitCmds }

/-- `DockerStatsTracker.run`.  Collect per-project data with the loop; if
any fetch succeeded store the rows and, when `GITHUB_ACTIONS` is truthy,
attempt the commit-and-push (whose failure only appends to `errors`);
finally raise the aggregate error if any error was recorded. -/
def run (inp : RunInput) : RunResult :=
  let st := runLoop inp.fetch inp.projects
  if st.downloads_data.isEmpty then
    finishRun inp.file st [] [] st.errors
  else
    let sd := store_data inp.date st.downloads_data inp.file
    if pyTruthyStr inp.githubActions then
      let cp := commit_and_push_changes csvFile inp.date inp.git
      match cp.1 with
      | .ok _ => finishRun (some sd.1) st (sd.2 ++ cp.2.1) cp.2.2 st.errors
      | .error e =>
          finishRun (some sd.1) st (sd.2 ++ cp.2.1) cp.2.2
            (st.errors ++ ["Failed to commit changes: " ++ e.message])
    else
      finishRun (some sd.1) st sd.2 [] st.errors

/-- The inputs of one whole process execution (`__main__`). -/
structure MainInput where
  dockerProjects : ProjectsVar
  githubActions : Option String
  fetch : String → String → HttpOutcome
  git : Nat → StepResult
  date : String
  file : Option Csv

/-- The observable outcome of one process execution. -/
structure MainResult where
  exitCode : Nat
  file : Option Csv
  logs : List LogEntry
  prints : List String
  requests : List String
  gitCmds : List (List String)

/-- The `run` call reached from `__main__` once the constructor succeeded
with projects `ps`. -/
def runOf (inp : MainInput) (ps : List Project) : RunResult :=
  run ⟨ps, inp.fetch, inp.git, inp.githubActions, inp.date, inp.file⟩

/-- The `if __name__ == "__main__"` block: construct the tracker (whose
`__init__` loads the projects — its failure prevents any further work) and
call `run`; any `Exception` from either is caught, logged and printed, and
not re-raised, so the interpreter always exits with status 0. -/
def main (inp : MainInput) : MainResult :=
  match load_projects inp.dockerProjects with
  | .error e =>
      { exitCode := 0, file := inp.file,
        logs := [LogEntry.mk .error ("Application error: " ++ e.message)],
        prints := ["\nError: " ++ e.message], requests := [], gitCmds := [] }
  | .ok ps =>
      let res := runOf inp ps
      match res.result with
      | .ok _ =>
          { exitCode := 0, file := res.file, logs := res.logs, prints := res.prints,
            requests := res.requests, gitCmds := res.gitCmds }
      | .error e =>
          { exitCode := 0, file := res.file,
            logs := res.logs ++ [LogEntry.mk .error ("Application error: " ++ e.message)],
            prints := res.prints ++ ["\nError: " ++ e.message],
            requests := res.requests, gitCmds := res.gitCmds }

/-! ## Helper lemmas -/

theorem LoopState.app_empty (a : LoopState) : a.app LoopState.empty = a := by
  simp [LoopState.app, LoopState.empty]

theorem LoopState.empty_app (a : LoopState) : LoopState.empty.app a = a := by
  simp [LoopState.app, LoopState.empty]

theorem LoopState.app_assoc (a b c : LoopState) : (a.app b).app c = a.app (b.app c) := by
  simp [LoopState.app, List.append_assoc]

theorem get_docker_downloads_ok (u r : String) (o : HttpOutcome) (n : Int)
    (h : fetchValue o = some n) : get_docker_downloads u r o = (.ok n, []) := by
  cases o with
  | transportError m => simp [fetchValue] at h
  | response s b =>
      simp only [fetchValue] at h
      simp only [get_docker_downloads]
      cases hbs : badStatus s with
      | true => simp [hbs] at h
      | false =>
          simp only [hbs, Bool.false_eq_true, if_false] at h ⊢
          rw [h]

theorem pyTruthyStr_getD (o : Option String) (h : pyTruthyStr o = true) :
    o = some (o.getD "") := by
  cases o with
  | none => simp [pyTruthyStr] at h
  | some s => rfl

theorem pyStrOpt_getD (o : Option String) (h : pyTruthyStr o = true) :
    pyStrOpt o = o.getD "" := by
  cases o with
  | none => simp [pyTruthyStr] at h
  | some s => rfl

theorem processProject_app (fetch : String → String → HttpOutcome) (st : LoopState)
    (p : Project) : processProject fetch st p = st.app (iterEffect fetch p) := by
  unfold iterEffect processProject
  cases hc : (pyTruthyStr p.username && pyTruthyStr p.repository) with
  | false =>
      simp only [hc, Bool.false_eq_true, if_false]
      simp [LoopState.app, LoopState.empty]
  | true =>
      simp only [hc, if_true]
      cases hg : get_docker_downloads (p.username.getD "") (p.repository.getD "")
          (fetch (p.username.getD "") (p.repository.getD "")) with
      | mk res flogs =>
          cases res with
          | ok d => simp [LoopState.app, LoopState.empty]
          | error e => simp [LoopState.app, LoopState.empty]

theorem foldl_processProject (fetch : String → String → HttpOutcome) (ps : List Project)
    (st : LoopState) : ps.foldl (processProject fetch) st = st.app (loopEffect fetch ps) := by
  induction ps generalizing st with
  | nil => simp [loopEffect, LoopState.app_empty]
  | cons p ps ih =>
      simp only [List.foldl_cons, loopEffect]
      rw [ih, processProject_app, LoopState.app_assoc]

theorem runLoop_eq (fetch : String → String → HttpOutcome) (ps : List Project) :
    runLoop fetch ps = loopEffect fetch ps := by
  rw [runLoop, foldl_processProject, LoopState.empty_app]

theorem iterEffect_ok (fetch : String → String → HttpOutcome) (p : Project) (n : Int)
    (hval : (pyTruthyStr p.username && pyTruthyStr p.repository) = true)
    (hv : fetchValue (fetch (p.username.getD "") (p.repository.getD "")) = some n) :
    iterEffect fetch p =
      ⟨[⟨p.username.getD "", p.repository.getD "", n⟩], [],
       [LogEntry.mk .info ("Processing " ++ p.username.getD "" ++ "/" ++ p.repository.getD "")],
       ["\nDocker Hub Statistics for " ++ p.username.getD "" ++ "/" ++ p.repository.getD "",
        "Current Downloads: " ++ pyCommaFormat n],
       [repoUrl (p.username.getD "") (p.repository.getD "")]⟩ := by
  unfold iterEffect processProject
  simp only [hval, if_true]
  rw [get_docker_downloads_ok _ _ _ _ hv]
  simp [LoopState.empty]

theorem iterEffect_fetch_err (fetch : String → String → HttpOutcome) (p : Project)
    (e : PyErr) (flogs : List LogEntry)
    (hval : (pyTruthyStr p.username && pyTruthyStr p.repository) = true)
    (hg : get_docker_downloads (p.username.getD "") (p.repository.getD "")
        (fetch (p.username.getD "") (p.repository.getD "")) = (.error e, flogs)) :
    iterEffect fetch p =
      ⟨[], ["Error processing " ++ p.username.getD "" ++ "/" ++ p.repository.getD ""
              ++ ": " ++ e.message],
       [LogEntry.mk .info ("Processing " ++ p.username.getD "" ++ "/" ++ p.repository.getD "")]
         ++ flogs
         ++ [LogEntry.mk .error ("Error processing " ++ p.username.getD "" ++ "/"
              ++ p.repository.getD "" ++ ": " ++ e.message)],
       [], [repoUrl (p.username.getD "") (p.repository.getD "")]⟩ := by
  unfold iterEffect processProject
  simp only [hval, if_true]
  rw [hg]
  simp [LoopState.empty]

theorem iterEffect_invalid (fetch : String → String → HttpOutcome) (p : Project)
    (hval : (pyTruthyStr p.username && pyTruthyStr p.repository) = false) :
    iterEffect fetch p =
      ⟨[], ["Error processing " ++ pyStrOpt p.username ++ "/" ++ pyStrOpt p.repository
              ++ ": " ++ ("Invalid project configuration: " ++ p.pyStr)],
       [LogEntry.mk .error ("Error processing " ++ pyStrOpt p.username ++ "/"
          ++ pyStrOpt p.repository ++ ": " ++ ("Invalid project configuration: " ++ p.pyStr))],
       [], []⟩ := by
  unfold iterEffect processProject
  simp only [hval, Bool.false_eq_true, if_false]
  simp [LoopState.empty, PyErr.message, String.append_assoc]

theorem runSteps_fst (git : Nat → StepResult) (cs : List (List String)) (i : Nat) :
    (runSteps git cs i).1 = (firstRaiseFrom git i cs.length).elim (Except.ok ()) Except.error := by
  induction cs generalizing i with
  | nil => simp [runSteps, firstRaiseFrom]
  | cons c cs ih =>
      simp only [runSteps, List.length_cons, firstRaiseFrom]
      cases git i with
      | raised e => simp
      | exited code => simpa using ih (i + 1)

theorem runSteps_snd_ne_nil (git : Nat → StepResult) (c : List String)
    (cs : List (List String)) (i : Nat) : (runSteps git (c :: cs) i).2 ≠ [] := by
  simp only [runSteps]
  cases git i <;> simp

theorem commit_and_push_fst (f d : String) (git : Nat → StepResult) :
    (commit_and_push_changes f d git).1 = (firstRaise git).elim (Except.ok ()) Except.error := by
  have h1 : (runSteps git (gitCommands f d) 0).1
      = (firstRaise git).elim (Except.ok ()) Except.error := by
    simpa [gitCommands, firstRaise] using runSteps_fst git (gitCommands f d) 0
  simp only [commit_and_push_changes]
  cases hf : firstRaise git with
  | none => rw [hf] at h1; rw [h1]; rfl
  | some e => rw [hf] at h1; rw [h1]; rfl

theorem commit_and_push_logs (f d : String) (git : Nat → StepResult) :
    (commit_and_push_changes f d git).2.1 = (firstRaise git).elim
      [LogEntry.mk .info "Successfully committed and pushed changes to GitHub"]
      (fun e => [LogEntry.mk .error ("Failed to commit and push changes: " ++ e.message)]) := by
  have h1 : (runSteps git (gitCommands f d) 0).1
      = (firstRaise git).elim (Except.ok ()) Except.error := by
    simpa [gitCommands, firstRaise] using runSteps_fst git (gitCommands f d) 0
  simp only [commit_and_push_changes]
  cases hf : firstRaise git with
  | none => rw [hf] at h1; rw [h1]; rfl
  | some e => rw [hf] at h1; rw [h1]; rfl

theorem commit_and_push_cmds_ne_nil (f d : String) (git : Nat → StepResult) :
    (commit_and_push_changes f d git).2.2 ≠ [] := by
  have h2 : (runSteps git (gitCommands f d) 0).2 ≠ [] := runSteps_snd_ne_nil git _ _ 0
  simp only [commit_and_push_changes]
  cases h1 : (runSteps git (gitCommands f d) 0).1 with
  | ok _ => exact h2
  | error e => exact h2

theorem store_data_fst (date : String) (dd : List DownloadEntry) (file : Option Csv) :
    (store_data date dd file).1 = file.getD [headerRow] ++ dd.map (rowOf date) := by
  cases file <;> rfl

theorem finishRun_file (f : Option Csv) (st : LoopState) (el : List LogEntry)
    (gc : List (List String)) (er : List String) : (finishRun f st el gc er).file = f := by
  unfold finishRun; split <;> rfl

theorem finishRun_errors (f : Option Csv) (st : LoopState) (el : List LogEntry)
    (gc : List (List String)) (er : List String) : (finishRun f st el gc er).errors = er := by
  unfold finishRun; split <;> rfl

theorem finishRun_downloads (f : Option Csv) (st : LoopState) (el : List LogEntry)
    (gc : List (List String)) (er : List String) :
    (finishRun f st el gc er).downloads = st.downloads_data := by
  unfold finishRun; split <;> rfl

theorem finishRun_gitCmds (f : Option Csv) (st : LoopState) (el : List LogEntry)
    (gc : List (List String)) (er : List String) : (finishRun f st el gc er).gitCmds = gc := by
  unfold finishRun; split <;> rfl

theorem finishRun_requests (f : Option Csv) (st : LoopState) (el : List LogEntry)
    (gc : List (List String)) (er : List String) : (finishRun f st el gc er).requests = st.requests := by
  unfold finishRun; split <;> rfl

theorem finishRun_prints (f : Option Csv) (st : LoopState) (el : List LogEntry)
    (gc : List (List String)) (er : List String) : (finishRun f st el gc er).prints = st.prints := by
  unfold finishRun; split <;> rfl

theorem finishRun_result (f : Option Csv) (st : LoopState) (el : List LogEntry)
    (gc : List (List String)) (er : List String) :
    (finishRun f st el gc er).result =
      if er.isEmpty then Except.ok ()
      else Except.error (.exception (String.intercalate "\n" er)) := by
  unfold finishRun; split <;> simp_all

theorem finishRun_logs (f : Option Csv) (st : LoopState) (el : List LogEntry)
    (gc : List (List String)) (er : List String) :
    ∃ x, (finishRun f st el gc er).logs = st.logs ++ x := by
  unfold finishRun; split
  · exact ⟨el ++ [LogEntry.mk .info "Script completed successfully"], by simp⟩
  · exact ⟨el, rfl⟩

theorem run_result_eq (inp : RunInput) :
    (run inp).result = if (run inp).errors.isEmpty then Except.ok ()
      else Except.error (.exception (String.intercalate "\n" (run inp).errors)) := by
  simp only [run]
  split
  · rw [finishRun_result, finishRun_errors]
  · split
    · split <;> rw [finishRun_result, finishRun_errors]
    · rw [finishRun_result, finishRun_errors]

theorem run_logs_prefix (inp : RunInput) :
    ∃ x, (run inp).logs = (runLoop inp.fetch inp.projects).logs ++ x := by
  simp only [run]
  split
  · exact finishRun_logs _ _ _ _ _
  · split
    · split <;> exact finishRun_logs _ _ _ _ _
    · exact finishRun_logs _ _ _ _ _

theorem iterEffect_ok_of_get (fetch : String → String → HttpOutcome) (p : Project)
    (n : Int) (flogs : List LogEntry)
    (hval : (pyTruthyStr p.username && pyTruthyStr p.repository) = true)
    (hg : get_docker_downloads (p.username.getD "") (p.repository.getD "")
        (fetch (p.username.getD "") (p.repository.getD "")) = (.ok n, flogs)) :
    iterEffect fetch p =
      ⟨[⟨p.username.getD "", p.repository.getD "", n⟩], [],
       [LogEntry.mk .info ("Processing " ++ p.username.getD "" ++ "/" ++ p.repository.getD "")]
         ++ flogs,
       ["\nDocker Hub Statistics for " ++ p.username.getD "" ++ "/" ++ p.repository.getD "",
        "Current Downloads: " ++ pyCommaFormat n],
       [repoUrl (p.username.getD "") (p.repository.getD "")]⟩ := by
  unfold iterEffect processProject
  simp only [hval, if_true]
  rw [hg]
  simp [LoopState.empty]

theorem iterEffect_one (fetch : String → String → HttpOutcome) (p : Project) :
    (iterEffect fetch p).errors.length + (iterEffect fetch p).downloads_data.length = 1 := by
  cases hc : (pyTruthyStr p.username && pyTruthyStr p.repository) with
  | false => rw [iterEffect_invalid fetch p hc]; rfl
  | true =>
      cases hg : get_docker_downloads (p.username.getD "") (p.repository.getD "")
          (fetch (p.username.getD "") (p.repository.getD "")) with
      | mk res flogs =>
          cases res with
          | ok n => rw [iterEffect_ok_of_get fetch p n flogs hc hg]; rfl
          | error e => rw [iterEffect_fetch_err fetch p e flogs hc hg]; rfl

theorem iterEffect_errors_char (fetch : String → String → HttpOutcome) (p : Project) :
    ∀ m ∈ (iterEffect fetch p).errors,
      (∃ s, m = "Error processing " ++ pyStrOpt p.username ++ "/" ++ pyStrOpt p.repository
        ++ ": " ++ s) ∧
      LogEntry.mk .error m ∈ (iterEffect fetch p).logs := by
  cases hc : (pyTruthyStr p.username && pyTruthyStr p.repository) with
  | false =>
      rw [iterEffect_invalid fetch p hc]
      intro m hm
      simp only [List.mem_singleton] at hm
      subst hm
      exact ⟨⟨_, rfl⟩, by simp⟩
  | true =>
      obtain ⟨hcu, hcr⟩ := Bool.and_eq_true_iff.mp hc
      cases hg : get_docker_downloads (p.username.getD "") (p.repository.getD "")
          (fetch (p.username.getD "") (p.repository.getD "")) with
      | mk res flogs =>
          cases res with
          | ok n =>
              rw [iterEffect_ok_of_get fetch p n flogs hc hg]
              intro m hm
              simp at hm
          | error e =>
              rw [iterEffect_fetch_err fetch p e flogs hc hg]
              intro m hm
              simp only [List.mem_singleton] at hm
              subst hm
              refine ⟨⟨e.message, ?_⟩, by simp⟩
              rw [pyStrOpt_getD _ hcu, pyStrOpt_getD _ hcr]

theorem loopEffect_downloads (fetch : String → String → HttpOutcome) (ps : List Project) :
    (loopEffect fetch ps).downloads_data
      = ps.flatMap (fun p => (iterEffect fetch p).downloads_data) := by
  induction ps with
  | nil => rfl
  | cons p ps ih => simp [loopEffect, LoopState.app, ih]

theorem loopEffect_errors (fetch : String → String → HttpOutcome) (ps : List Project) :
    (loopEffect fetch ps).errors = ps.flatMap (fun p => (iterEffect fetch p).errors) := by
  induction ps with
  | nil => rfl
  | cons p ps ih => simp [loopEffect, LoopState.app, ih]

theorem loopEffect_requests (fetch : String → String → HttpOutcome) (ps : List Project) :
    (loopEffect fetch ps).requests = ps.flatMap (fun p => (iterEffect fetch p).requests) := by
  induction ps with
  | nil => rfl
  | cons p ps ih => simp [loopEffect, LoopState.app, ih]

theorem loopEffect_logs (fetch : String → String → HttpOutcome) (ps : List Project) :
    (loopEffect fetch ps).logs = ps.flatMap (fun p => (iterEffect fetch p).logs) := by
  induction ps with
  | nil => rfl
  | cons p ps ih => simp [loopEffect, LoopState.app, ih]

theorem loopEffect_count (fetch : String → String → HttpOutcome) (ps : List Project) :
    (loopEffect fetch ps).errors.length + (loopEffect fetch ps).downloads_data.length
      = ps.length := by
  induction ps with
  | nil => rfl
  | cons p ps ih =>
      simp only [loopEffect, LoopState.app, List.length_append, List.length_cons]
      have := iterEffect_one fetch p
      omega

theorem loopEffect_downloads_all_ok (fetch : String → String → HttpOutcome) (ps : List Project)
    (hval : ∀ p ∈ ps, (pyTruthyStr p.username && pyTruthyStr p.repository) = true)
    (hok : ∀ p ∈ ps,
      (fetchValue (fetch (p.username.getD "") (p.repository.getD ""))).isSome = true) :
    (loopEffect fetch ps).downloads_data = ps.map (fun p =>
      ⟨p.username.getD "", p.repository.getD "",
       (fetchValue (fetch (p.username.getD "") (p.repository.getD ""))).getD 0⟩) := by
  induction ps with
  | nil => rfl
  | cons p ps ih =>
      obtain ⟨n, hn⟩ := Option.isSome_iff_exists.mp (hok p (List.mem_cons_self p ps))
      simp only [loopEffect, LoopState.app, List.map_cons]
      rw [iterEffect_ok fetch p n (hval p (List.mem_cons_self p ps)) hn,
        ih (fun q hq => hval q (List.mem_cons_of_mem _ hq))
           (fun q hq => hok q (List.mem_cons_of_mem _ hq))]
      simp [hn]

theorem run_char (inp : RunInput) :
    (run inp).downloads = (runLoop inp.fetch inp.projects).downloads_data ∧
    (run inp).requests = (runLoop inp.fetch inp.projects).requests ∧
    (run inp).prints = (runLoop inp.fetch inp.projects).prints ∧
    (run inp).file = (if (runLoop inp.fetch inp.projects).downloads_data.isEmpty then inp.file
      else some (inp.file.getD [headerRow] ++
        (runLoop inp.fetch inp.projects).downloads_data.map (rowOf inp.date))) ∧
    (run inp).gitCmds = (if (runLoop inp.fetch inp.projects).downloads_data.isEmpty = false
        ∧ pyTruthyStr inp.githubActions = true
      then (commit_and_push_changes csvFile inp.date inp.git).2.2 else []) ∧
    (run inp).errors = (runLoop inp.fetch inp.projects).errors ++
      (if (runLoop inp.fetch inp.projects).downloads_data.isEmpty = false
          ∧ pyTruthyStr inp.githubActions = true
        then (firstRaise inp.git).elim []
          (fun e => ["Failed to commit changes: " ++ e.message]) else []) := by
  simp only [run]
  cases hd : (runLoop inp.fetch inp.projects).downloads_data.isEmpty with
  | true =>
      simp [finishRun_downloads, finishRun_requests, finishRun_prints, finishRun_file,
        finishRun_gitCmds, finishRun_errors, hd]
  | false =>
      cases hgh : pyTruthyStr inp.githubActions with
      | false =>
          simp [finishRun_downloads, finishRun_requests, finishRun_prints, finishRun_file,
            finishRun_gitCmds, finishRun_errors, hd, hgh, store_data_fst]
      | true =>
          have h1 := commit_and_push_fst csvFile inp.date inp.git
          cases hcp : (commit_and_push_changes csvFile inp.date inp.git).1 with
          | ok _ =>
              rw [hcp] at h1
              cases hf : firstRaise inp.git with
              | none =>
                  simp [finishRun_downloads, finishRun_requests, finishRun_prints,
                    finishRun_file, finishRun_gitCmds, finishRun_errors, hd, hgh, hf,
                    store_data_fst]
              | some e2 => rw [hf] at h1; simp at h1
          | error e =>
              rw [hcp] at h1
              cases hf : firstRaise inp.git with
              | none => rw [hf] at h1; simp at h1
              | some e2 =>
                  rw [hf] at h1
                  simp only [Option.elim] at h1
                  have he : e = e2 := by
                    cases h1
                    rfl
                  subst he
                  simp [finishRun_downloads, finishRun_requests, finishRun_prints,
                    finishRun_file, finishRun_gitCmds, finishRun_errors, hd, hgh, hf,
                    store_data_fst]


theorem runOf_def (inp : MainInput) (ps : List Project) :
    runOf inp ps = run ⟨ps, inp.fetch, inp.git, inp.githubActions, inp.date, inp.file⟩ := rfl

/-! ## Claims -/

/-- C1: For every valid configuration with N entries (each entry carrying a
truthy username and repository), a run in which every fetch succeeds appends
exactly N new rows to the ledger CSV, each row dated with the run's start
date and formatted as date, "namespace/name", count, and the rows appear in
the same order as the entries in the configuration. -/
theorem successful_run_appends_config_rows (inp : RunInput)
    (hval : ∀ p ∈ inp.projects, (pyTruthyStr p.username && pyTruthyStr p.repository) = true)
    (hok : ∀ p ∈ inp.projects,
      (fetchValue (inp.fetch (p.username.getD "") (p.repository.getD ""))).isSome = true)
    (hne : inp.projects ≠ []) :
    (run inp).file = some (inp.file.getD [headerRow] ++ inp.projects.map (fun p =>
      [inp.date,
       p.username.getD "" ++ "/" ++ p.repository.getD "",
       toString ((fetchValue (inp.fetch (p.username.getD "") (p.repository.getD ""))).getD 0)])) := by
  have hfile := (run_char inp).2.2.2.1
  rw [runLoop_eq, loopEffect_downloads_all_ok inp.fetch inp.projects hval hok] at hfile
  rw [hfile, if_neg]
  · simp [rowOf, List.map_map, Function.comp]
  · simp [List.isEmpty_eq_false, hne]

theorem successful_run_appends_config_rows_witness :
    (run ⟨[⟨some "acme", some "app"⟩, ⟨some "acme", some "db"⟩],
      (fun _ r => if r = "app" then .response 200 [("pull_count", 42)]
        else .response 200 [("pull_count", 7)]),
      (fun _ => .exited 0), none, "2024-01-01", none⟩).file
    = some [["Date", "Repository", "Downloads"],
            ["2024-01-01", "acme/app", "42"], ["2024-01-01", "acme/db", "7"]] := by
  have h := successful_run_appends_config_rows
    ⟨[⟨some "acme", some "app"⟩, ⟨some "acme", some "db"⟩],
      (fun _ r => if r = "app" then .response 200 [("pull_count", 42)]
        else .response 200 [("pull_count", 7)]),
      (fun _ => .exited 0), none, "2024-01-01", none⟩
    (by decide) (by decide) (by decide)
  simpa using h

/-- C2: The ledger file is created with the header row
"Date,Repository,Downloads" exactly once, on the first write when the file
does not yet exist (first conjunct: an existing file's content is kept
verbatim as a prefix and no header is added; second conjunct: an absent
file gets exactly one header record, before the data rows); every
subsequent `store_data` call only appends, and at the whole-run level the
file is either untouched or extended by appended rows, never rewritten or
deleted (third conjunct). -/
theorem ledger_header_once_and_append_only :
    (∀ (date : String) (dd : List DownloadEntry) (c : Csv),
      (store_data date dd (some c)).1 = c ++ dd.map (rowOf date)) ∧
    (∀ (date : String) (dd : List DownloadEntry),
      (store_data date dd none).1 = headerRow :: dd.map (rowOf date)) ∧
    (∀ inp : RunInput, (run inp).file = inp.file ∨
      ∃ rows, (run inp).file = some (inp.file.getD [headerRow] ++ rows)) := by
  refine ⟨fun date dd c => by rw [store_data_fst]; rfl,
          fun date dd => by rw [store_data_fst]; rfl,
          fun inp => ?_⟩
  have hfile := (run_char inp).2.2.2.1
  cases h : (runLoop inp.fetch inp.projects).downloads_data.isEmpty with
  | true => left; rw [hfile, h, if_pos rfl]
  | false =>
      right
      refine ⟨(runLoop inp.fetch inp.projects).downloads_data.map (rowOf inp.date), ?_⟩
      rw [hfile, h]
      simp

/-- C3: per-item error isolation.  First conjunct: the loop state is the
concatenation of the effects of processing each configured entry
independently of all the others, so a failure at one entry leaves every
other entry's fetch, rows, messages and requests unchanged.  Second
conjunct: every entry contributes exactly one error message or exactly one
download entry (never zero), so no entry is skipped and no failure aborts
the batch.  Third conjunct: all collected rows — in particular those of
entries processed after a failing one — are written to the ledger. -/
theorem per_item_failures_isolated (inp : RunInput) :
    runLoop inp.fetch inp.projects = loopEffect inp.fetch inp.projects ∧
    (runLoop inp.fetch inp.projects).errors.length
        + (runLoop inp.fetch inp.projects).downloads_data.length = inp.projects.length ∧
    (run inp).file = (if (runLoop inp.fetch inp.projects).downloads_data.isEmpty then inp.file
      else some (inp.file.getD [headerRow]
        ++ (runLoop inp.fetch inp.projects).downloads_data.map (rowOf inp.date))) := by
  refine ⟨runLoop_eq inp.fetch inp.projects, ?_, (run_char inp).2.2.2.1⟩
  rw [runLoop_eq]
  exact loopEffect_count inp.fetch inp.projects

/-- C4: the publish step is attempted (some git command is invoked) if and
only if the GITHUB_ACTIONS environment value is truthy (set to a non-empty
string — the source tests Python truthiness) and at least one fetch
succeeded, so that at least one ledger row was written in this run. -/
theorem publish_iff_flag_and_rows (inp : RunInput) :
    (run inp).gitCmds ≠ [] ↔
      (pyTruthyStr inp.githubActions = true ∧ (run inp).downloads ≠ []) := by
  have hg := (run_char inp).2.2.2.2.1
  have hd := (run_char inp).1
  rw [hg, hd]
  cases h1 : (runLoop inp.fetch inp.projects).downloads_data.isEmpty with
  | true =>
      have : (runLoop inp.fetch inp.projects).downloads_data = [] :=
        List.isEmpty_iff.mp h1
      simp [this]
  | false =>
      have hne : (runLoop inp.fetch inp.projects).downloads_data ≠ [] :=
        List.isEmpty_eq_false.mp h1
      cases h2 : pyTruthyStr inp.githubActions with
      | true => simp [hne, commit_and_push_cmds_ne_nil]
      | false => simp [hne]

/-- C5: if loading the configuration fails (environment variable absent or
blank, malformed JSON, or parsed to no entries — exactly the cases in which
`load_projects` returns an error), the run aborts before any other work: no
network request is issued and neither the ledger file nor git is touched. -/
theorem config_failure_no_network_no_write (inp : MainInput) (e : PyErr)
    (h : load_projects inp.dockerProjects = .error e) :
    (main inp).requests = [] ∧ (main inp).file = inp.file ∧ (main inp).gitCmds = [] := by
  simp [main, h]

theorem config_failure_no_network_no_write_witness :
    (main ⟨.malformed "Expecting value", some "true",
      (fun _ _ => .response 200 [("pull_count", 42)]), (fun _ => .exited 0),
      "2024-01-01", some [["Date", "Repository", "Downloads"]]⟩).requests = [] ∧
    (main ⟨.malformed "Expecting value", some "true",
      (fun _ _ => .response 200 [("pull_count", 42)]), (fun _ => .exited 0),
      "2024-01-01", some [["Date", "Repository", "Downloads"]]⟩).file
      = some [["Date", "Repository", "Downloads"]] ∧
    (main ⟨.malformed "Expecting value", some "true",
      (fun _ _ => .response 200 [("pull_count", 42)]), (fun _ => .exited 0),
      "2024-01-01", some [["Date", "Repository", "Downloads"]]⟩).gitCmds = [] :=
  config_failure_no_network_no_write
    ⟨.malformed "Expecting value", some "true",
      (fun _ _ => .response 200 [("pull_count", 42)]), (fun _ => .exited 0),
      "2024-01-01", some [["Date", "Repository", "Downloads"]]⟩
    (.valueError "Invalid JSON in DOCKER_PROJECTS: Expecting value") rfl

/-- C6 (counterexample): the claim says every failure case of the fetch
emits an error log entry before propagating, and that each failure is
wrapped in a fetch error.  At the concrete input of a success-status
response whose body lacks "pull_count", the fetch does fail — but as a bare
KeyError, with an empty log trace: `data['pull_count']` raises outside the
scope of `except requests.exceptions.RequestException`, so nothing is
logged and nothing is wrapped. -/
theorem fetch_missing_field_fails_without_log :
    get_docker_downloads "acme" "app" (.response 200 [])
      = (.error (.keyError "pull_count"), []) := rfl

/-- C6 (amended): the fetch fails in each of the three cases — transport
error (e.g. timeout), non-success HTTP status, and response body missing
"pull_count" — and never retries (it is a single-shot function of its one
request's outcome).  For the two transport-level cases it emits exactly one
error log entry and propagates the client-library exception; the
missing-field case propagates a bare KeyError with no log entry. -/
theorem fetch_error_cases (u r m : String) (s : Nat) (b : List (String × Int)) :
    (get_docker_downloads u r (.transportError m)
      = (.error (.requestException m),
         [LogEntry.mk .error ("Failed to fetch Docker Hub data for " ++ u ++ "/" ++ r
            ++ ": " ++ m)])) ∧
    (badStatus s = true →
      get_docker_downloads u r (.response s b)
        = (.error (.requestException (httpErrorStr s (repoUrl u r))),
           [LogEntry.mk .error ("Failed to fetch Docker Hub data for " ++ u ++ "/" ++ r
              ++ ": " ++ httpErrorStr s (repoUrl u r))])) ∧
    (badStatus s = false → b.lookup "pull_count" = none →
      get_docker_downloads u r (.response s b)
        = (.error (.keyError "pull_count"), [])) := by
  refine ⟨rfl, fun hs => ?_, fun hs hb => ?_⟩
  · simp only [get_docker_downloads, hs, if_true]
    rfl
  · simp only [get_docker_downloads, hs, Bool.false_eq_true, if_false, hb]

theorem fetch_error_cases_witness :
    (get_docker_downloads "acme" "app" (.transportError "timed out")
      = (.error (.requestException "timed out"),
         [LogEntry.mk .error "Failed to fetch Docker Hub data for acme/app: timed out"])) ∧
    (get_docker_downloads "acme" "app" (.response 404 [])
      = (.error (.requestException
           "404 Client Error for url: https://hub.docker.com/v2/repositories/acme/app/"),
         [LogEntry.mk .error ("Failed to fetch Docker Hub data for acme/app: "
            ++ "404 Client Error for url: https://hub.docker.com/v2/repositories/acme/app/")])) ∧
    (get_docker_downloads "acme" "app" (.response 200 [("name", 3)])
      = (.error (.keyError "pull_count"), [])) := by
  have h := fetch_error_cases "acme" "app" "timed out" 404 []
  have h2 := fetch_error_cases "acme" "app" "timed out" 200 [("name", 3)]
  exact ⟨by simpa using h.1, by simpa using h.2.1 (by decide),
         by simpa using h2.2.2 (by decide) (by decide)⟩

/-- C7 (counterexample): the claim says that if any of the four
version-control steps fails, publish does not report success.  At the
concrete input where every git invocation runs and exits with status 1
(configure, add, commit and push all fail), `commit_and_push_changes`
nevertheless returns success and logs the success message: the source never
passes `check=True` and never inspects exit codes. -/
theorem publish_reports_success_despite_failed_steps :
    commit_and_push_changes csvFile "2024-01-01" (fun _ => .exited 1)
      = (.ok (), [LogEntry.mk .info "Successfully committed and pushed changes to GitHub"],
         gitCommands csvFile "2024-01-01") := rfl

/-- C7 (amended): a version-control step whose invocation raises an
exception (e.g. the git binary cannot be run) is surfaced to the caller:
publish returns that error (and logs a failure message) instead of
success.  A step that runs but exits nonzero is not checked, so when no
invocation raises, publish reports success regardless of the steps' exit
codes. -/
theorem publish_surfaces_raised_steps_only (f d : String) (git : Nat → StepResult) :
    (commit_and_push_changes f d git).1 = (firstRaise git).elim (Except.ok ()) Except.error ∧
    (commit_and_push_changes f d git).2.1 = (firstRaise git).elim
      [LogEntry.mk .info "Successfully committed and pushed changes to GitHub"]
      (fun e => [LogEntry.mk .error ("Failed to commit and push changes: " ++ e.message)]) :=
  ⟨commit_and_push_fst f d git, commit_and_push_logs f d git⟩

/-- C8: in every run in which at least one row is collected (so the ledger
write happens), GITHUB_ACTIONS is truthy and the publish step fails (a git
invocation raises `e`), the rows written in this run remain in the file —
the final file is exactly the old content (or the fresh header) plus the
appended rows — and the publish failure is appended as exactly one more
message at the end of the run's error list. -/
theorem publish_failure_keeps_ledger_and_appends_error (inp : RunInput) (e : PyErr)
    (hrows : (runLoop inp.fetch inp.projects).downloads_data ≠ [])
    (hflag : pyTruthyStr inp.githubActions = true)
    (hraise : firstRaise inp.git = some e) :
    (run inp).file = some (inp.file.getD [headerRow]
      ++ (runLoop inp.fetch inp.projects).downloads_data.map (rowOf inp.date)) ∧
    (run inp).errors = (runLoop inp.fetch inp.projects).errors
      ++ ["Failed to commit changes: " ++ e.message] := by
  obtain ⟨-, -, -, hfile, -, herr⟩ := run_char inp
  have hie : (runLoop inp.fetch inp.projects).downloads_data.isEmpty = false :=
    List.isEmpty_eq_false.mpr hrows
  constructor
  · rw [hfile, hie]
    simp
  · rw [herr, hie, hflag, hraise]
    simp

theorem publish_failure_keeps_ledger_and_appends_error_witness :
    (run ⟨[⟨some "acme", some "app"⟩],
      (fun _ _ => .response 200 [("pull_count", 42)]),
      (fun _ => .raised (.osError "No such file or directory: git")),
      some "true", "2024-01-01", none⟩).file
      = some [["Date", "Repository", "Downloads"], ["2024-01-01", "acme/app", "42"]] ∧
    (run ⟨[⟨some "acme", some "app"⟩],
      (fun _ _ => .response 200 [("pull_count", 42)]),
      (fun _ => .raised (.osError "No such file or directory: git")),
      some "true", "2024-01-01", none⟩).errors
      = ["Failed to commit changes: No such file or directory: git"] := by
  have h := publish_failure_keeps_ledger_and_appends_error
    ⟨[⟨some "acme", some "app"⟩],
      (fun _ _ => .response 200 [("pull_count", 42)]),
      (fun _ => .raised (.osError "No such file or directory: git")),
      some "true", "2024-01-01", none⟩
    (.osError "No such file or directory: git") (by decide) rfl rfl
  exact ⟨by simpa using h.1, by simpa using h.2⟩

/-- C9: every per-item failure message recorded during the loop names the
username and repository of the entry being processed (first conjunct, which
also shows the message is logged at error level among the run's log
entries); the recorded messages are exactly the per-entry ones, in entry
order (second conjunct); and when any were recorded the run terminates with
an aggregate error whose message is the newline-join of all recorded
messages (third conjunct), which the top-level handler then both logs and
prints (last two conjuncts). -/
theorem failures_logged_and_aggregate_reported (inp : MainInput) (ps : List Project)
    (hld : load_projects inp.dockerProjects = .ok ps)
    (hne : (runOf inp ps).errors ≠ []) :
    (∀ p ∈ ps, ∀ m ∈ (iterEffect inp.fetch p).errors,
      (∃ s, m = "Error processing " ++ pyStrOpt p.username ++ "/" ++ pyStrOpt p.repository
        ++ ": " ++ s) ∧ LogEntry.mk .error m ∈ (runOf inp ps).logs) ∧
    (runLoop inp.fetch ps).errors = ps.flatMap (fun p => (iterEffect inp.fetch p).errors) ∧
    (runOf inp ps).result
      = .error (.exception (String.intercalate "\n" ((runOf inp ps).errors))) ∧
    LogEntry.mk .error ("Application error: "
      ++ String.intercalate "\n" ((runOf inp ps).errors)) ∈ (main inp).logs ∧
    ("\nError: " ++ String.intercalate "\n" ((runOf inp ps).errors)) ∈ (main inp).prints := by
  have hie : (runOf inp ps).errors.isEmpty = false := List.isEmpty_eq_false.mpr hne
  have hres : (runOf inp ps).result
      = .error (.exception (String.intercalate "\n" ((runOf inp ps).errors))) := by
    rw [runOf_def] at hie ⊢
    rw [run_result_eq, hie]
    simp
  have hlogs : (main inp).logs = (runOf inp ps).logs
      ++ [LogEntry.mk .error ("Application error: "
           ++ String.intercalate "\n" ((runOf inp ps).errors))] := by
    simp [main, hld, hres, PyErr.message]
  have hprints : (main inp).prints = (runOf inp ps).prints
      ++ ["\nError: " ++ String.intercalate "\n" ((runOf inp ps).errors)] := by
    simp [main, hld, hres, PyErr.message]
  refine ⟨?_, ?_, hres, by simp [hlogs], by simp [hprints]⟩
  · intro p hp m hm
    obtain ⟨hshape, hlog⟩ := iterEffect_errors_char inp.fetch p m hm
    refine ⟨hshape, ?_⟩
    obtain ⟨x, hx⟩ :=
      run_logs_prefix ⟨ps, inp.fetch, inp.git, inp.githubActions, inp.date, inp.file⟩
    rw [runOf_def, hx]
    apply List.mem_append_left
    rw [runLoop_eq, loopEffect_logs]
    exact List.mem_flatMap.mpr ⟨p, hp, hlog⟩
  · rw [runLoop_eq]
    exact loopEffect_errors inp.fetch ps

theorem failures_logged_and_aggregate_reported_witness :
    LogEntry.mk .error "Application error: Error processing acme/app: boom"
      ∈ (main ⟨.parsed [⟨some "acme", some "app"⟩], none,
          (fun _ _ => .transportError "boom"), (fun _ => .exited 0),
          "2024-01-01", none⟩).logs ∧
    "\nError: Error processing acme/app: boom"
      ∈ (main ⟨.parsed [⟨some "acme", some "app"⟩], none,
          (fun _ _ => .transportError "boom"), (fun _ => .exited 0),
          "2024-01-01", none⟩).prints := by
  have h := failures_logged_and_aggregate_reported
    ⟨.parsed [⟨some "acme", some "app"⟩], none,
      (fun _ _ => .transportError "boom"), (fun _ => .exited 0), "2024-01-01", none⟩
    [⟨some "acme", some "app"⟩] rfl (by decide)
  exact ⟨h.2.2.2.1, h.2.2.2.2⟩

/-- C10: every execution from the entry point terminates normally — the
interpreter exit status is 0 — whatever the configuration, oracles and
file state; when construction fails its exception is caught, logged and
printed (second conjunct), and when `run` raises (including the terminal
aggregate error) that exception is caught, logged and printed after the
run's own output (third conjunct); in no case is the exception re-raised. -/
theorem main_never_raises_exits_zero (inp : MainInput) :
    (main inp).exitCode = 0 ∧
    (∀ e, load_projects inp.dockerProjects = .error e →
      (main inp).logs = [LogEntry.mk .error ("Application error: " ++ e.message)] ∧
      (main inp).prints = ["\nError: " ++ e.message]) ∧
    (∀ ps e, load_projects inp.dockerProjects = .ok ps → (runOf inp ps).result = .error e →
      (main inp).logs = (runOf inp ps).logs
        ++ [LogEntry.mk .error ("Application error: " ++ e.message)] ∧
      (main inp).prints = (runOf inp ps).prints ++ ["\nError: " ++ e.message]) := by
  refine ⟨?_, fun e he => ?_, fun ps e hps hres => ?_⟩
  · cases hl : load_projects inp.dockerProjects with
    | error e => simp [main, hl]
    | ok ps =>
        cases hr : (runOf inp ps).result with
        | ok u => simp [main, hl, hr]
        | error e => simp [main, hl, hr]
  · constructor <;> simp [main, he]
  · constructor <;> simp [main, hps, hres]

theorem main_never_raises_exits_zero_witness :
    (main ⟨.absent, none, (fun _ _ => .response 200 []), (fun _ => .exited 0),
      "2024-01-01", none⟩).exitCode = 0 ∧
    (main ⟨.absent, none, (fun _ _ => .response 200 []), (fun _ => .exited 0),
      "2024-01-01", none⟩).logs
      = [LogEntry.mk .error
          "Application error: DOCKER_PROJECTS environment variable is not set"] ∧
    (main ⟨.absent, none, (fun _ _ => .response 200 []), (fun _ => .exited 0),
      "2024-01-01", none⟩).prints
      = ["\nError: DOCKER_PROJECTS environment variable is not set"] := by
  have h := main_never_raises_exits_zero
    ⟨.absent, none, (fun _ _ => .response 200 []), (fun _ => .exited 0), "2024-01-01", none⟩
  have h2 := h.2.1 (.valueError "DOCKER_PROJECTS environment variable is not set") rfl
  exact ⟨h.1, h2.1, h2.2⟩
